import Mathlib

set_option linter.unusedVariables false

/-!
Verification of the `pyarrow.ipc` wrapper module (`src/python/pyarrow/ipc.py`):
writer/reader construction, IPC write-option resolution
(`_get_legacy_format_default`), the module-level convenience constructors
(`new_stream`, `new_file`, `open_stream`, `open_file`), the `read_pandas`
mixin, and the pandas serialization facade
(`serialize_pandas` / `deserialize_pandas`).

The native layer (`pyarrow.lib`) that the wrapper calls into — the stream
protocol writer/reader state machines and the file-format open logic — is not
part of the Python source; those parts are modelled from the specification and
marked `Modelled from the spec:` in their doc comments.  Everything else is a
direct shallow embedding of the Python code.
-/

/-- Metadata version enum: the two values `ipc.py` selects between
(`MetadataVersion.V4` / `MetadataVersion.V5`). -/
inductive MetadataVersion where
  | V4
  | V5
  deriving Repr, DecidableEq

/-- The IPC write options produced by option resolution.  The spec's data
model for Format Options is the pair {legacy-framing flag, metadata-schema
version}, which are exactly the two fields `_get_legacy_format_default`
constructs. -/
structure IpcWriteOptions where
  use_legacy_format : Bool
  metadata_version : MetadataVersion
  deriving Repr, DecidableEq

/-- A Python value as it can arrive at the `options` keyword of a writer
constructor: `None`, a bool, an int, an `IpcWriteOptions` instance, or some
other (truthy) object. -/
inductive PyObj where
  | pyNone
  | pyBool (b : Bool)
  | pyInt (i : Int)
  | ipcOptions (o : IpcWriteOptions)
  | otherTruthy
  deriving Repr, DecidableEq

/-- Python truthiness (`bool(x)`): `None` is falsy, bools/ints by value,
extension objects without `__bool__`/`__len__` (such as `IpcWriteOptions`)
are truthy. -/
def PyObj.truthy : PyObj → Bool
  | .pyNone => false
  | .pyBool b => b
  | .pyInt i => i != 0
  | .ipcOptions _ => true
  | .otherTruthy => true

/-- `x is None` for a `PyObj`. -/
def PyObj.isNone : PyObj → Bool
  | .pyNone => true
  | _ => false

/-- The Python exceptions raised along these code paths. -/
inductive PyErr where
  | valueError (msg : String)
  | typeError (msg : String)
  | arrowInvalid (msg : String)
  deriving Repr, DecidableEq

/-- The process environment, as the finite set of variables that are set. -/
abbrev Env : Type := List (String × String)

/-- `os.environ.get(name, dflt)`. -/
def Env.get (env : Env) (name dflt : String) : String :=
  match List.find? (fun p => p.fst == name) env with
  | some p => p.snd
  | none => dflt

/-- Whitespace stripped by Python `int(str)` (ASCII subset). -/
def isPySpace (c : Char) : Bool :=
  c == ' ' || c == '\t' || c == '\n' || c == '\x0d' || c == '\x0b' || c == '\x0c'

/-- Decimal digit test. -/
def isDigitChar (c : Char) : Bool :=
  48 ≤ c.toNat && c.toNat ≤ 57

/-- Numeric value of a decimal digit character. -/
def digitVal (c : Char) : Nat := c.toNat - 48

/-- Digit-run accumulator for Python decimal literals: a single underscore is
permitted between two digits, nowhere else. -/
def parseDigitsGo (acc : Nat) : List Char → Option Nat
  | [] => some acc
  | '_' :: c :: cs =>
    if isDigitChar c then parseDigitsGo (10 * acc + digitVal c) cs else none
  | ['_'] => none
  | c :: cs =>
    if isDigitChar c then parseDigitsGo (10 * acc + digitVal c) cs else none

/-- A nonempty decimal digit run (with Python's underscore rule). -/
def parseDigits : List Char → Option Nat
  | [] => none
  | c :: cs => if isDigitChar c then parseDigitsGo (digitVal c) cs else none

/-- Strip leading and trailing whitespace. -/
def stripSpaces (cs : List Char) : List Char :=
  ((cs.dropWhile isPySpace).reverse.dropWhile isPySpace).reverse

/-- Python `int(s)` on a decimal string: strip whitespace, optional sign,
nonempty digit run; `none` models the `ValueError` Python raises on anything
else. -/
def pyIntOfString (s : String) : Option Int :=
  match stripSpaces s.toList with
  | '+' :: rest => (parseDigits rest).map (fun n => (n : Int))
  | '-' :: rest => (parseDigits rest).map (fun n => -(n : Int))
  | rest => (parseDigits rest).map (fun n => (n : Int))

/-- `bool(int(os.environ.get(name, '0')))` as evaluated inside
`_get_legacy_format_default`; a string `int()` cannot parse raises
`ValueError`. -/
def envFlag (env : Env) (name : String) : Except PyErr Bool :=
  match pyIntOfString (Env.get env name "0") with
  | some i => .ok (i != 0)
  | none => .error (.valueError "invalid literal for int")

/-- `ipc.py` lines 128-145: resolve the writer options from the
`use_legacy_format` keyword (here `Option Bool`, `none` = Python `None`),
the `options` keyword (an arbitrary Python value) and the environment. -/
def _get_legacy_format_default (use_legacy_format : Option Bool)
    (options : PyObj) (env : Env) : Except PyErr IpcWriteOptions :=
  if use_legacy_format.isSome && !options.isNone then
    .error (.valueError "Can provide at most one of options and use_legacy_format")
  else if options.truthy then
    match options with
    | .ipcOptions o => .ok o
    | _ => .error (.typeError "expected IpcWriteOptions")
  else
    match (match use_legacy_format with
           | some b => Except.ok b
           | none => envFlag env "ARROW_PRE_0_15_IPC_FORMAT") with
    | .error e => .error e
    | .ok ulf =>
      match envFlag env "ARROW_PRE_1_0_METADATA_VERSION" with
      | .error e => .error e
      | .ok mv4 =>
        .ok ⟨ulf, if mv4 then MetadataVersion.V4 else MetadataVersion.V5⟩

/-- A cell value in a columnar batch (the concrete scenario in the spec uses
int64 and utf8 columns). -/
inductive Cell where
  | int (i : Int)
  | str (s : String)
  deriving Repr, DecidableEq

/-- A schema, identified per the spec by the structural content of its field
descriptors; the flatbuffers encoding of a field descriptor is out of scope,
so a field is kept as its opaque descriptor (here: its name). -/
structure Schema where
  fields : List String
  deriving Repr, DecidableEq

/-- A record batch: a schema plus one value column per field. -/
structure RecordBatchData where
  schema : Schema
  columns : List (List Cell)
  deriving Repr, DecidableEq

/-- One message of the stream protocol, at message granularity: one Schema
message, DictionaryBatch/RecordBatch messages, end-of-stream marker.  The
facade path under verification writes no dictionary-encoded columns, so
DictionaryBatch is not materialized here. -/
inductive IpcMessage where
  | schemaMsg (s : Schema)
  | recordBatch (b : RecordBatchData)
  | eos
  deriving Repr, DecidableEq

/-- A combined tabular result (`pyarrow.Table`): the stream's schema plus the
batches in arrival order. -/
structure Table where
  schema : Schema
  batches : List RecordBatchData
  deriving Repr, DecidableEq

/-- Stream writer state: the stream's schema, the resolved options (fixed at
construction), the sink's accumulated messages, and whether closed. -/
structure RecordBatchStreamWriterState where
  schema : Schema
  options : IpcWriteOptions
  sink : List IpcMessage
  closed : Bool
  deriving Repr, DecidableEq

/-- Modelled from the spec: the native stream-writer `_open` (from
`pyarrow.lib`, not in the Python source) writes the Schema message first and
enters the writing state. -/
def streamWriterOpen (sink : List IpcMessage) (schema : Schema)
    (options : IpcWriteOptions) : RecordBatchStreamWriterState :=
  ⟨schema, options, sink ++ [IpcMessage.schemaMsg schema], false⟩

/-- `RecordBatchStreamWriter.__init__` (ipc.py lines 95-97): resolve options,
then `_open(sink, schema, options)`. -/
def RecordBatchStreamWriter.init (sink : List IpcMessage) (schema : Schema)
    (use_legacy_format : Option Bool) (options : PyObj) (env : Env) :
    Except PyErr RecordBatchStreamWriterState :=
  match _get_legacy_format_default use_legacy_format options env with
  | .error e => .error e
  | .ok opts => .ok (streamWriterOpen sink schema opts)

/-- Modelled from the spec: the native `write_batch` (not in the Python
source) fails after close or on a schema mismatch, otherwise appends the
RecordBatch message to the sink. -/
def RecordBatchStreamWriterState.write_batch (w : RecordBatchStreamWriterState)
    (b : RecordBatchData) : Except PyErr RecordBatchStreamWriterState :=
  if w.closed then .error (.valueError "write on closed writer")
  else if b.schema ≠ w.schema then
    .error (.arrowInvalid "batch schema does not match stream schema")
  else .ok ⟨w.schema, w.options, w.sink ++ [IpcMessage.recordBatch b], false⟩

/-- Modelled from the spec: the native `close` (not in the Python source)
writes the end-of-stream marker once; further closes are no-ops. -/
def RecordBatchStreamWriterState.close (w : RecordBatchStreamWriterState) :
    RecordBatchStreamWriterState :=
  if w.closed then w
  else ⟨w.schema, w.options, w.sink ++ [IpcMessage.eos], true⟩

/-- File writer state; at message granularity it tracks the same data as the
stream writer (the leading magic and the trailing footer are byte-level
artifacts below this model's granularity). -/
structure RecordBatchFileWriterState where
  schema : Schema
  options : IpcWriteOptions
  sink : List IpcMessage
  closed : Bool
  deriving Repr, DecidableEq

/-- Modelled from the spec: the native file-writer `_open` (not in the Python
source) writes the magic/pad then behaves as the stream writer, writing the
Schema message. -/
def fileWriterOpen (sink : List IpcMessage) (schema : Schema)
    (options : IpcWriteOptions) : RecordBatchFileWriterState :=
  ⟨schema, options, sink ++ [IpcMessage.schemaMsg schema], false⟩

/-- `RecordBatchFileWriter.__init__` (ipc.py lines 123-125): resolve options,
then `_open(sink, schema, options)`. -/
def RecordBatchFileWriter.init (sink : List IpcMessage) (schema : Schema)
    (use_legacy_format : Option Bool) (options : PyObj) (env : Env) :
    Except PyErr RecordBatchFileWriterState :=
  match _get_legacy_format_default use_legacy_format options env with
  | .error e => .error e
  | .ok opts => .ok (fileWriterOpen sink schema opts)

/-- Stream reader state after a successful open: the schema read from the
first message, and the remaining messages of the source. -/
structure RecordBatchStreamReaderState where
  schema : Schema
  rest : List IpcMessage
  deriving Repr, DecidableEq

/-- Modelled from the spec: the native stream-reader `_open` (not in the
Python source) reads exactly one Schema message; it is an error if the first
message is not a Schema message or the source is empty. -/
def streamReaderOpen (source : List IpcMessage) :
    Except PyErr RecordBatchStreamReaderState :=
  match source with
  | IpcMessage.schemaMsg s :: rest => .ok ⟨s, rest⟩
  | _ => .error (.arrowInvalid "expected schema message at start of stream")

/-- `RecordBatchStreamReader.__init__` (ipc.py lines 63-64): `_open(source)`. -/
def RecordBatchStreamReader.init (source : List IpcMessage) :
    Except PyErr RecordBatchStreamReaderState :=
  streamReaderOpen source

/-- Modelled from the spec: drain the remaining stream-body messages into the
batch sequence in arrival order, stopping at the end-of-stream marker (clean
end of input is likewise end of data); a second Schema message is a decode
error. -/
def readBatches : List IpcMessage → Except PyErr (List RecordBatchData)
  | [] => .ok []
  | IpcMessage.eos :: _ => .ok []
  | IpcMessage.recordBatch b :: rest =>
    match readBatches rest with
    | .error e => .error e
    | .ok bs => .ok (b :: bs)
  | IpcMessage.schemaMsg _ :: _ =>
    .error (.arrowInvalid "unexpected schema message in stream body")

/-- Modelled from the spec: `read_all` drains all remaining batches, in
arrival order, into one combined tabular result under the stream's schema. -/
def RecordBatchStreamReaderState.read_all (r : RecordBatchStreamReaderState) :
    Except PyErr Table :=
  match readBatches r.rest with
  | .error e => .error e
  | .ok bs => .ok ⟨r.schema, bs⟩

/-- The six magic bytes `b"ARROW1"` framing the file format. -/
def arrowMagic : List Nat := [65, 82, 82, 79, 87, 49]

/-- A little-endian 32-bit integer read at a byte offset. -/
def readLE32 (bs : List Nat) (off : Nat) : Option Nat :=
  match (bs.drop off).take 4 with
  | [b0, b1, b2, b3] => some (b0 + 256 * (b1 + 256 * (b2 + 256 * b3)))
  | _ => none

/-- `xs[start : start+len]`. -/
def byteSlice (bs : List Nat) (start len : Nat) : List Nat :=
  (bs.drop start).take len

/-- File reader state after a successful open: the source bytes, and the
footer bytes located through the trailing anchor (decoding the footer's
flatbuffers content is out of the spec's scope). -/
structure RecordBatchFileReaderState where
  source : List Nat
  footerBytes : List Nat
  deriving Repr, DecidableEq

/-- Modelled from the spec: the native file-reader `_open` (not in the Python
source) validates the leading magic, anchors at `footer_offset` (or the
source length when absent), validates the trailing magic just before the
anchor, reads the int32 footer length at `anchor - len(MAGIC) - 4`, and reads
the footer, which ends that many bytes before the length field. -/
def fileReaderOpen (source : List Nat) (footer_offset : Option Nat) :
    Except PyErr RecordBatchFileReaderState :=
  let anchor := footer_offset.getD source.length
  if source.take 6 ≠ arrowMagic then
    .error (.arrowInvalid "not an Arrow file: bad leading magic")
  else if anchor > source.length ∨ anchor < 16 then
    .error (.arrowInvalid "file too small or footer offset out of bounds")
  else if byteSlice source (anchor - 6) 6 ≠ arrowMagic then
    .error (.arrowInvalid "not an Arrow file: bad trailing magic")
  else
    match readLE32 source (anchor - 10) with
    | none => .error (.arrowInvalid "unreadable footer length")
    | some flen =>
      if anchor < 10 + flen then
        .error (.arrowInvalid "invalid footer length")
      else .ok ⟨source, byteSlice source (anchor - 10 - flen) flen⟩

/-- `RecordBatchFileReader.__init__` (ipc.py lines 113-114):
`_open(source, footer_offset=footer_offset)`. -/
def RecordBatchFileReader.init (source : List Nat)
    (footer_offset : Option Nat) : Except PyErr RecordBatchFileReaderState :=
  fileReaderOpen source footer_offset

/-- `new_stream` (ipc.py lines 148-151): construct a
`RecordBatchStreamWriter` with the same arguments. -/
def new_stream (sink : List IpcMessage) (schema : Schema)
    (use_legacy_format : Option Bool) (options : PyObj) (env : Env) :
    Except PyErr RecordBatchStreamWriterState :=
  RecordBatchStreamWriter.init sink schema use_legacy_format options env

/-- `open_stream` (ipc.py lines 160-173): construct a
`RecordBatchStreamReader` on the source. -/
def open_stream (source : List IpcMessage) :
    Except PyErr RecordBatchStreamReaderState :=
  RecordBatchStreamReader.init source

/-- `new_file` (ipc.py lines 176-179): construct a `RecordBatchFileWriter`
with the same arguments. -/
def new_file (sink : List IpcMessage) (schema : Schema)
    (use_legacy_format : Option Bool) (options : PyObj) (env : Env) :
    Except PyErr RecordBatchFileWriterState :=
  RecordBatchFileWriter.init sink schema use_legacy_format options env

/-- `open_file` (ipc.py lines 188-204): construct a `RecordBatchFileReader`
with the same source and footer offset. -/
def open_file (source : List Nat) (footer_offset : Option Nat) :
    Except PyErr RecordBatchFileReaderState :=
  RecordBatchFileReader.init source footer_offset

/-- A pandas data frame, for the facade: an index (flagged when it is a pure
`RangeIndex`) plus named value columns. -/
structure DataFrame where
  indexIsRange : Bool
  index : List Cell
  cols : List (String × List Cell)
  deriving Repr, DecidableEq

/-- The column name under which the external converter stores a preserved
index. -/
def indexColName : String := "__index_level_0__"

/-- Modelled from the spec: the external frame→batch converter
(`RecordBatch.from_pandas`).  Index-preservation policy: the default (`none`)
stores the index as a column except for a pure range index, which is kept as
metadata only; `some true` always stores it; `some false` never does.  The
thread count governs only internal parallelism, never the result. -/
def RecordBatch.from_pandas (df : DataFrame) (nthreads : Option Nat)
    (preserve_index : Option Bool) : RecordBatchData :=
  let storeIndex := match preserve_index with
    | some b => b
    | none => !df.indexIsRange
  let cols := if storeIndex then df.cols ++ [(indexColName, df.index)]
              else df.cols
  ⟨⟨cols.map Prod.fst⟩, cols.map Prod.snd⟩

/-- The options forwarded to the external converter `Table.to_pandas` along
these code paths: the threading hint. -/
structure ToPandasOptions where
  use_threads : Bool
  deriving Repr, DecidableEq

/-- Column-wise concatenation of a table's batches, named by its schema. -/
def Table.columnData (t : Table) : List (String × List Cell) :=
  (List.range t.schema.fields.length).map fun i =>
    (t.schema.fields.getD i "", (t.batches.map (fun b => b.columns.getD i [])).flatten)

/-- A table's row count: the summed lengths of the first column across
batches. -/
def Table.numRows (t : Table) : Nat :=
  (t.batches.map (fun b => (b.columns.headD []).length)).sum

/-- Split off a trailing stored-index column, when present. -/
def splitIndexCol (cols : List (String × List Cell)) :
    List (String × List Cell) × Option (List Cell) :=
  match cols.reverse with
  | [] => ([], none)
  | (n, v) :: rest =>
    if n = indexColName then (rest.reverse, some v) else (cols, none)

/-- Modelled from the spec: the external table→frame converter
(`Table.to_pandas`): concatenate the batches column-wise, restore a stored
index column when one is present, else synthesize a range index.  The
threading hint governs only internal parallelism, never the result. -/
def Table.to_pandas (t : Table) (opts : ToPandasOptions) : DataFrame :=
  match splitIndexCol (Table.columnData t) with
  | (dataCols, some idx) => ⟨false, idx, dataCols⟩
  | (dataCols, none) =>
    ⟨true, (List.range t.numRows).map (fun n => Cell.int (Int.ofNat n)), dataCols⟩

/-- `_ReadPandasOption.read_pandas` (ipc.py lines 34-50), shared by stream
and file readers: the result of `self.read_all()` converted by
`Table.to_pandas` with the passthrough options. -/
def _ReadPandasOption.read_pandas (read_all_result : Except PyErr Table)
    (opts : ToPandasOptions) : Except PyErr DataFrame :=
  match read_all_result with
  | .error e => .error e
  | .ok t => .ok (Table.to_pandas t opts)

/-- `read_pandas` of a stream reader: the mixin applied to its `read_all`. -/
def RecordBatchStreamReaderState.read_pandas
    (r : RecordBatchStreamReaderState) (opts : ToPandasOptions) :
    Except PyErr DataFrame :=
  _ReadPandasOption.read_pandas r.read_all opts

/-- `serialize_pandas` (ipc.py lines 207-232): convert the frame to one
record batch (forwarding `nthreads` and `preserve_index`), open a
`RecordBatchStreamWriter` on a fresh in-memory sink with the batch's schema
(option resolution consults the environment since neither `options` nor
`use_legacy_format` is passed), write that batch, close on leaving the
`with` block, and return the sink's accumulated contents. -/
def serialize_pandas (df : DataFrame) (nthreads : Option Nat)
    (preserve_index : Option Bool) (env : Env) :
    Except PyErr (List IpcMessage) :=
  let batch := RecordBatch.from_pandas df nthreads preserve_index
  match RecordBatchStreamWriter.init [] batch.schema none PyObj.pyNone env with
  | .error e => .error e
  | .ok w =>
    match w.write_batch batch with
    | .error e => .error e
    | .ok w2 => .ok w2.close.sink

/-- `deserialize_pandas` (ipc.py lines 235-252): open a
`RecordBatchStreamReader` on the buffer, `read_all()` inside the `with`
block, then convert the table with `to_pandas(use_threads=use_threads)`. -/
def deserialize_pandas (buf : List IpcMessage) (use_threads : Bool) :
    Except PyErr DataFrame :=
  match RecordBatchStreamReader.init buf with
  | .error e => .error e
  | .ok r =>
    match r.read_all with
    | .error e => .error e
    | .ok table => .ok (Table.to_pandas table ⟨use_threads⟩)

/-! ## Helper lemmas -/

/-- A non-`None` Python value fails the `is None` test. -/
theorem PyObj.isNone_eq_false (o : PyObj) (h : o ≠ PyObj.pyNone) :
    o.isNone = false := by
  cases o <;> simp_all [PyObj.isNone]

/-- Shared computation: with both `use_legacy_format` and `options` omitted
and a well-formed environment, `serialize_pandas` succeeds and the sink holds
exactly the Schema message, the one RecordBatch message, and the
end-of-stream marker. -/
theorem serialize_pandas_spec (df : DataFrame) (nthreads : Option Nat)
    (preserve_index : Option Bool) (env : Env) (b1 b2 : Bool)
    (h1 : envFlag env "ARROW_PRE_0_15_IPC_FORMAT" = .ok b1)
    (h2 : envFlag env "ARROW_PRE_1_0_METADATA_VERSION" = .ok b2) :
    serialize_pandas df nthreads preserve_index env =
      .ok [IpcMessage.schemaMsg (RecordBatch.from_pandas df nthreads preserve_index).schema,
           IpcMessage.recordBatch (RecordBatch.from_pandas df nthreads preserve_index),
           IpcMessage.eos] := by
  unfold serialize_pandas RecordBatchStreamWriter.init
  simp [_get_legacy_format_default, h1, h2, PyObj.isNone, PyObj.truthy,
        streamWriterOpen, RecordBatchStreamWriterState.write_batch,
        RecordBatchStreamWriterState.close]

/-! ## Claim theorems -/

/-- Claim C1: constructing a stream or file writer (via the classes or via
`new_stream` / `new_file`) with a non-`None` `options` and a non-`None`
`use_legacy_format` raises `ValueError`, for every combination of such
non-`None` values; the error occurs during option resolution, so no writer
state is produced and nothing is written to the sink. -/
theorem writer_options_legacy_mutually_exclusive
    (b : Bool) (o : PyObj) (env : Env) (sink : List IpcMessage)
    (schema : Schema) (ho : o ≠ PyObj.pyNone) :
    RecordBatchStreamWriter.init sink schema (some b) o env =
      .error (.valueError "Can provide at most one of options and use_legacy_format") ∧
    RecordBatchFileWriter.init sink schema (some b) o env =
      .error (.valueError "Can provide at most one of options and use_legacy_format") ∧
    new_stream sink schema (some b) o env =
      .error (.valueError "Can provide at most one of options and use_legacy_format") ∧
    new_file sink schema (some b) o env =
      .error (.valueError "Can provide at most one of options and use_legacy_format") := by
  have hno : o.isNone = false := PyObj.isNone_eq_false o ho
  simp [RecordBatchStreamWriter.init, RecordBatchFileWriter.init, new_stream,
        new_file, _get_legacy_format_default, hno]

/-- Witness for C1 at `use_legacy_format=True`, `options` a non-`None`
object. -/
theorem writer_options_legacy_mutually_exclusive_witness :
    (PyObj.otherTruthy ≠ PyObj.pyNone) ∧
    RecordBatchStreamWriter.init [] ⟨["id"]⟩ (some true) PyObj.otherTruthy [] =
      .error (.valueError "Can provide at most one of options and use_legacy_format") :=
  ⟨by decide,
   (writer_options_legacy_mutually_exclusive true PyObj.otherTruthy [] [] ⟨["id"]⟩
     (by decide)).1⟩

/-- Claim C2: with no explicit options value used, resolution returns options
whose legacy-framing flag is the explicit boolean when given, else the
interpreted value of `ARROW_PRE_0_15_IPC_FORMAT` (false when absent), and
whose metadata version is V4 exactly when `ARROW_PRE_1_0_METADATA_VERSION`
interprets as true, else V5; in particular, with both arguments omitted and
both variables unset the result is `use_legacy_format=False` and V5. -/
theorem default_option_resolution
    (ulf : Option Bool) (env : Env) (b1 b2 : Bool)
    (h1 : envFlag env "ARROW_PRE_0_15_IPC_FORMAT" = .ok b1)
    (h2 : envFlag env "ARROW_PRE_1_0_METADATA_VERSION" = .ok b2) :
    _get_legacy_format_default ulf PyObj.pyNone env =
      .ok ⟨ulf.getD b1, if b2 then MetadataVersion.V4 else MetadataVersion.V5⟩ ∧
    _get_legacy_format_default none PyObj.pyNone [] =
      .ok ⟨false, MetadataVersion.V5⟩ := by
  constructor
  · cases ulf with
    | none =>
      simp [_get_legacy_format_default, h1, h2, PyObj.isNone, PyObj.truthy]
    | some b =>
      simp [_get_legacy_format_default, h2, PyObj.isNone, PyObj.truthy]
  · rfl

/-- Witness for C2: a set legacy-framing variable and an unset metadata
variable resolve to legacy framing with V5 metadata. -/
theorem default_option_resolution_witness :
    envFlag [("ARROW_PRE_0_15_IPC_FORMAT", "1")] "ARROW_PRE_0_15_IPC_FORMAT" = .ok true ∧
    envFlag [("ARROW_PRE_0_15_IPC_FORMAT", "1")] "ARROW_PRE_1_0_METADATA_VERSION" = .ok false ∧
    (_get_legacy_format_default none PyObj.pyNone [("ARROW_PRE_0_15_IPC_FORMAT", "1")] =
       .ok ⟨true, MetadataVersion.V5⟩ ∧
     _get_legacy_format_default none PyObj.pyNone [] =
       .ok ⟨false, MetadataVersion.V5⟩) :=
  ⟨rfl, rfl,
   default_option_resolution none [("ARROW_PRE_0_15_IPC_FORMAT", "1")] true false rfl rfl⟩

/-- Counterexample to Claim C3: the environment variables are NOT read with
"the string \"1\" means true, any other string means false, and resolution
never fails" semantics — the string "2" is treated as true, and the string
"x" makes resolution raise `ValueError`. -/
theorem env_flag_integer_semantics_cx :
    _get_legacy_format_default none PyObj.pyNone
        [("ARROW_PRE_0_15_IPC_FORMAT", "2")] =
      .ok ⟨true, MetadataVersion.V5⟩ ∧
    _get_legacy_format_default none PyObj.pyNone
        [("ARROW_PRE_0_15_IPC_FORMAT", "x")] =
      .error (.valueError "invalid literal for int") :=
  ⟨rfl, rfl⟩

/-- Claim C3 as amended: each environment variable is interpreted by Python
integer parsing of its string value (default "0"): a string parsing to a
nonzero integer means true, a string parsing to zero (or an absent variable)
means false, and a string that is not an integer literal raises
`ValueError`. -/
theorem env_flag_integer_semantics (s : String) :
    _get_legacy_format_default none PyObj.pyNone
        [("ARROW_PRE_0_15_IPC_FORMAT", s)] =
      (match pyIntOfString s with
       | some i => .ok ⟨i != 0, MetadataVersion.V5⟩
       | none => .error (.valueError "invalid literal for int")) ∧
    _get_legacy_format_default none PyObj.pyNone
        [("ARROW_PRE_1_0_METADATA_VERSION", s)] =
      (match pyIntOfString s with
       | some i =>
         .ok ⟨false, if i != 0 then MetadataVersion.V4 else MetadataVersion.V5⟩
       | none => .error (.valueError "invalid literal for int")) ∧
    _get_legacy_format_default none PyObj.pyNone [] =
      .ok ⟨false, MetadataVersion.V5⟩ := by
  have h0 : pyIntOfString "0" = some 0 := rfl
  refine ⟨?_, ?_, rfl⟩
  · simp only [_get_legacy_format_default, envFlag, Env.get, List.find?,
               PyObj.isNone, PyObj.truthy]
    cases h : pyIntOfString s <;> simp [h, h0]
  · simp only [_get_legacy_format_default, envFlag, Env.get, List.find?,
               PyObj.isNone, PyObj.truthy]
    cases h : pyIntOfString s <;> simp [h, h0]

/-- Counterexample to Claim C4: supplying a non-`None` options argument that
is not an `IpcWriteOptions` instance does NOT always raise `TypeError` — the
falsy value `0` is silently ignored and defaults are resolved instead. -/
theorem explicit_options_validation_cx :
    _get_legacy_format_default none (PyObj.pyInt 0) [] =
      .ok ⟨false, MetadataVersion.V5⟩ :=
  rfl

/-- Claim C4 as amended: whenever a *truthy* explicit options value is
supplied (and no legacy boolean), option resolution validates its type and
uses it verbatim — an `IpcWriteOptions` instance is returned unchanged with
neither environment variable consulted, and any other truthy value raises
`TypeError`; a falsy non-`None` options value instead falls through to
default resolution. -/
theorem explicit_options_validation (o : PyObj) (env : Env)
    (ht : o.truthy = true) :
    _get_legacy_format_default none o env =
      (match o with
       | PyObj.ipcOptions w => .ok w
       | _ => .error (.typeError "expected IpcWriteOptions")) := by
  cases o with
  | pyNone => exact absurd ht (by simp [PyObj.truthy])
  | pyBool b =>
    cases b with
    | false => exact absurd ht (by simp [PyObj.truthy])
    | true => rfl
  | pyInt i =>
    rw [show PyObj.truthy (.pyInt i) = (i != 0) from rfl] at ht
    simp [_get_legacy_format_default, PyObj.truthy, PyObj.isNone, ht]
  | ipcOptions w => rfl
  | otherTruthy => rfl

/-- Witness for C4 (amended) at a concrete `IpcWriteOptions` value: it is
returned verbatim, even though the environment would resolve differently. -/
theorem explicit_options_validation_witness :
    (PyObj.ipcOptions ⟨true, MetadataVersion.V4⟩).truthy = true ∧
    _get_legacy_format_default none (PyObj.ipcOptions ⟨true, MetadataVersion.V4⟩)
        [("ARROW_PRE_0_15_IPC_FORMAT", "0")] =
      .ok ⟨true, MetadataVersion.V4⟩ :=
  ⟨rfl,
   explicit_options_validation (PyObj.ipcOptions ⟨true, MetadataVersion.V4⟩)
     [("ARROW_PRE_0_15_IPC_FORMAT", "0")] rfl⟩

/-- Claim C9: asymmetric treatment of falsy non-`None` options — combined
with a non-`None` legacy boolean they still trigger the mutual-exclusion
`ValueError`, yet supplied alone they are silently ignored: resolution
behaves exactly as if `options=None` had been passed (defaults from the
environment, no `TypeError`). -/
theorem falsy_options_asymmetry (o : PyObj) (b : Bool) (env : Env)
    (ho : o ≠ PyObj.pyNone) (ht : o.truthy = false) :
    _get_legacy_format_default (some b) o env =
      .error (.valueError "Can provide at most one of options and use_legacy_format") ∧
    _get_legacy_format_default none o env =
      _get_legacy_format_default none PyObj.pyNone env := by
  have hno : o.isNone = false := PyObj.isNone_eq_false o ho
  constructor
  · simp [_get_legacy_format_default, hno]
  · simp [_get_legacy_format_default, hno, ht,
          show PyObj.pyNone.isNone = true from rfl,
          show PyObj.pyNone.truthy = false from rfl]

/-- Witness for C9 at `options = 0`. -/
theorem falsy_options_asymmetry_witness :
    (PyObj.pyInt 0 ≠ PyObj.pyNone) ∧ (PyObj.pyInt 0).truthy = false ∧
    (_get_legacy_format_default (some true) (PyObj.pyInt 0) [] =
       .error (.valueError "Can provide at most one of options and use_legacy_format") ∧
     _get_legacy_format_default none (PyObj.pyInt 0) [] =
       _get_legacy_format_default none PyObj.pyNone []) :=
  ⟨by decide, rfl, falsy_options_asymmetry (PyObj.pyInt 0) true [] (by decide) rfl⟩

/-- Claim C6: `serialize_pandas` converts the frame to exactly one record
batch (forwarding `nthreads` and `preserve_index` unchanged), opens a
stream-protocol writer on a fresh in-memory sink with that batch's schema,
writes exactly that batch, closes the writer, and returns the sink's
accumulated contents: the Schema message, the single RecordBatch message,
and the end-of-stream marker.  (The writer is built with default options, so
a well-formed environment is assumed.) -/
theorem serialize_pandas_single_batch (df : DataFrame) (nthreads : Option Nat)
    (preserve_index : Option Bool) (env : Env) (b1 b2 : Bool)
    (h1 : envFlag env "ARROW_PRE_0_15_IPC_FORMAT" = .ok b1)
    (h2 : envFlag env "ARROW_PRE_1_0_METADATA_VERSION" = .ok b2) :
    serialize_pandas df nthreads preserve_index env =
      .ok [IpcMessage.schemaMsg (RecordBatch.from_pandas df nthreads preserve_index).schema,
           IpcMessage.recordBatch (RecordBatch.from_pandas df nthreads preserve_index),
           IpcMessage.eos] :=
  serialize_pandas_spec df nthreads preserve_index env b1 b2 h1 h2

/-- Witness for C6 at a one-column, one-row frame with a range index and an
empty environment. -/
theorem serialize_pandas_single_batch_witness :
    envFlag [] "ARROW_PRE_0_15_IPC_FORMAT" = .ok false ∧
    envFlag [] "ARROW_PRE_1_0_METADATA_VERSION" = .ok false ∧
    serialize_pandas ⟨true, [Cell.int 0], [("id", [Cell.int 7])]⟩ none none [] =
      .ok [IpcMessage.schemaMsg ⟨["id"]⟩,
           IpcMessage.recordBatch ⟨⟨["id"]⟩, [[Cell.int 7]]⟩,
           IpcMessage.eos] :=
  ⟨rfl, rfl,
   serialize_pandas_single_batch ⟨true, [Cell.int 0], [("id", [Cell.int 7])]⟩
     none none [] false false rfl rfl⟩

/-- Claim C5: round-trip through the facade — deserializing the bytes
produced by `serialize_pandas` yields exactly the frame obtained by
converting the frame to a batch and converting the single-batch table back,
for every frame, conversion argument, and threading hint: the stream
protocol loses nothing and reorders nothing. -/
theorem pandas_roundtrip (df : DataFrame) (nthreads : Option Nat)
    (preserve_index : Option Bool) (env : Env) (u : Bool) (b1 b2 : Bool)
    (h1 : envFlag env "ARROW_PRE_0_15_IPC_FORMAT" = .ok b1)
    (h2 : envFlag env "ARROW_PRE_1_0_METADATA_VERSION" = .ok b2) :
    (serialize_pandas df nthreads preserve_index env).bind
        (fun buf => deserialize_pandas buf u) =
      .ok (Table.to_pandas
        ⟨(RecordBatch.from_pandas df nthreads preserve_index).schema,
         [RecordBatch.from_pandas df nthreads preserve_index]⟩ ⟨u⟩) := by
  rw [serialize_pandas_spec df nthreads preserve_index env b1 b2 h1 h2]
  simp [Except.bind, deserialize_pandas, RecordBatchStreamReader.init,
        streamReaderOpen, RecordBatchStreamReaderState.read_all, readBatches]

/-- Witness for C5 at a concrete one-column frame and empty environment. -/
theorem pandas_roundtrip_witness :
    envFlag [] "ARROW_PRE_0_15_IPC_FORMAT" = .ok false ∧
    envFlag [] "ARROW_PRE_1_0_METADATA_VERSION" = .ok false ∧
    (serialize_pandas ⟨true, [Cell.int 0], [("id", [Cell.int 7])]⟩ none none []).bind
        (fun buf => deserialize_pandas buf true) =
      .ok ⟨true, [Cell.int 0], [("id", [Cell.int 7])]⟩ :=
  ⟨rfl, rfl,
   pandas_roundtrip ⟨true, [Cell.int 0], [("id", [Cell.int 7])]⟩
     none none [] true false false rfl rfl⟩

/-- Claim C7: `deserialize_pandas` opens a stream-protocol reader over the
buffer, reads all batches via `read_all`, and converts the combined table
with `Table.to_pandas`, the threading hint forwarded unchanged. -/
theorem deserialize_pandas_reads_all_then_converts
    (buf : List IpcMessage) (u : Bool) :
    deserialize_pandas buf u =
      (RecordBatchStreamReader.init buf).bind
        (fun r => r.read_all.map (fun t => Table.to_pandas t ⟨u⟩)) := by
  cases hr : RecordBatchStreamReader.init buf with
  | error e => simp [deserialize_pandas, hr, Except.bind]
  | ok r =>
    cases ha : r.read_all with
    | error e => simp [deserialize_pandas, hr, ha, Except.bind, Except.map]
    | ok t => simp [deserialize_pandas, hr, ha, Except.bind, Except.map]

/-- Claim C8: `read_pandas(**options)` is exactly `read_all()` converted by
`Table.to_pandas` with the passthrough options forwarded unchanged — both
for the mixin applied to an arbitrary `read_all` outcome (covering every
stream or file reader) and for the stream reader's instance of it. -/
theorem read_pandas_is_read_all_to_pandas
    (ra : Except PyErr Table) (opts : ToPandasOptions)
    (r : RecordBatchStreamReaderState) :
    _ReadPandasOption.read_pandas ra opts =
      ra.map (fun t => Table.to_pandas t opts) ∧
    r.read_pandas opts = r.read_all.map (fun t => Table.to_pandas t opts) := by
  have h : ∀ x : Except PyErr Table,
      _ReadPandasOption.read_pandas x opts =
        x.map (fun t => Table.to_pandas t opts) := by
    intro x; cases x <;> rfl
  exact ⟨h ra, h r.read_all⟩

/-- Claim C10: the module-level convenience functions construct exactly the
corresponding class instances, with no argument altered or added:
`new_stream` is `RecordBatchStreamWriter`, `new_file` is
`RecordBatchFileWriter`, `open_stream` is `RecordBatchStreamReader`, and
`open_file` is `RecordBatchFileReader`. -/
theorem convenience_functions_equal_constructors
    (sink : List IpcMessage) (schema : Schema) (u : Option Bool) (o : PyObj)
    (env : Env) (msgs : List IpcMessage) (bytes : List Nat)
    (foff : Option Nat) :
    new_stream sink schema u o env =
      RecordBatchStreamWriter.init sink schema u o env ∧
    new_file sink schema u o env =
      RecordBatchFileWriter.init sink schema u o env ∧
    open_stream msgs = RecordBatchStreamReader.init msgs ∧
    open_file bytes foff = RecordBatchFileReader.init bytes foff :=
  ⟨rfl, rfl, rfl, rfl⟩
